import Mathlib

/-!
# MGK.js — verification of the physics-and-collision core

Shallow embedding of the physics core of the MGK.js mini game engine
(`src/unnamed/part_000`, with the duplicated engine revision in
`src/MiniGameKit.js` embedded separately where the two differ).

Conventions of the embedding:

* JavaScript numbers are modelled as exact rationals (`ℚ`); the claims under
  study are stated in exact arithmetic.
* `Math.hypot` computes a square root, which is not rational, so the whole
  collision pipeline is parameterised by a function `hyp : ℚ → ℚ → ℚ`
  standing for `Math.hypot`.  Theorems that depend on the geometry assume
  `hyp dx dy ^ 2 = dx ^ 2 + dy ^ 2` and `0 ≤ hyp dx dy`, which characterises
  the real `Math.hypot` exactly on the inputs involved.
* `getComponent(T)` returns the first component of type `T` or `undefined`;
  since the data model's contract is at most one component per type, an
  entity is modelled as a record of three `Option` fields.
* A JavaScript `TypeError` (reading `.position` of `undefined`) is modelled
  by returning `none` from the embedded function; total code returns plain
  values.
* In `ℚ`, division by zero yields `0`.  The source computes
  `dx / dist || 0`; for a genuine hypotenuse function `dist = 0` forces
  `dx = 0` and `0/0` is `NaN`, which `|| 0` turns into `0`, so the embedding
  writes `if dist = 0 then 0 else dx / dist`, which agrees with the source
  on all reachable inputs.
-/

namespace MGK

/-- A 2-D vector `{x, y}`, used for positions, velocities and normals. -/
structure Vec2 where
  x : ℚ
  y : ℚ
deriving DecidableEq

/-- The `Transform` component (src/unnamed/part_000, lines 11–19): position,
rotation, facing angle, scale. -/
structure Transform where
  position : Vec2
  rotation : ℚ
  angle : ℚ
  scale : ℚ
deriving DecidableEq

/-- The `RigidBody` component state (src/unnamed/part_000, lines 191–209).
The constructor clamps non-positive mass to 1, see `mkRigidBodyMass`. -/
structure RigidBody where
  velocity : Vec2
  angularVelocity : ℚ
  gravity : ℚ
  friction : ℚ
  restitution : ℚ
  mass : ℚ
  buoyancy : ℚ
deriving DecidableEq

/-- The mass field as computed by the `RigidBody` constructor
(src/unnamed/part_000, line 207): `mass <= 0 ? 1 : mass`. -/
def mkRigidBodyMass (mass : ℚ) : ℚ :=
  if mass ≤ 0 then 1 else mass

/-- The `Collider` component (src/unnamed/part_000, lines 224–229). -/
structure Collider where
  radius : ℚ
deriving DecidableEq

/-- A game object, viewed through the three physics components that the
core reads via `getComponent` (at most one instance per type is the data
model's contract). -/
structure Entity where
  transform : Option Transform
  rigid : Option RigidBody
  collider : Option Collider
deriving DecidableEq

/-- Method `RigidBody.update` (src/unnamed/part_000, lines 211–220): gravity
accumulation, frame-rate-dependent friction damping of the linear velocity,
then integration of position and angle.  Returns the updated body and
transform; when the entity has no `Transform` the method returns without
mutating anything. -/
def RigidBody.update (rb : RigidBody) (t : Option Transform) (dt : ℚ) :
    RigidBody × Option Transform :=
  match t with
  | none => (rb, none)
  | some t =>
    let vy1 := rb.velocity.y + (rb.gravity - rb.buoyancy) * dt
    let vx2 := rb.velocity.x * (1 - rb.friction)
    let vy2 := vy1 * (1 - rb.friction)
    let px := t.position.x + vx2 * dt
    let py := t.position.y + vy2 * dt
    let ang := t.angle + rb.angularVelocity * dt
    ({ rb with velocity := ⟨vx2, vy2⟩ },
     some { t with position := ⟨px, py⟩, angle := ang })

/-- Method `RigidBody.update` of the other engine revision
(src/MiniGameKit.js, lines 133–149): gravity, then position/angle
integration, then damping of `velocity.x`, `velocity.y` *and*
`angularVelocity`.  (That revision's `RigidBody` carries no `mass` field;
the shared record is used and `mass` is simply never read.) -/
def kitRigidBodyUpdate (rb : RigidBody) (t : Option Transform) (dt : ℚ) :
    RigidBody × Option Transform :=
  match t with
  | none => (rb, none)
  | some t =>
    let vy1 := rb.velocity.y + (rb.gravity - rb.buoyancy) * dt
    let px := t.position.x + rb.velocity.x * dt
    let py := t.position.y + vy1 * dt
    let ang := t.angle + rb.angularVelocity * dt
    ({ rb with
        velocity := ⟨rb.velocity.x * (1 - rb.friction), vy1 * (1 - rb.friction)⟩,
        angularVelocity := rb.angularVelocity * (1 - rb.friction) },
     some { t with position := ⟨px, py⟩, angle := ang })

/-- Method `GameObject.update` (src/unnamed/part_000, lines 60–63) restricted to
the physics components: of `Transform`/`RigidBody`/`Collider` only
`RigidBody` overrides `update`, so one object tick is one `RigidBody.update`
when a body is present. -/
def Entity.update (e : Entity) (dt : ℚ) : Entity :=
  match e.rigid with
  | none => e
  | some rb =>
    let r := RigidBody.update rb e.transform dt
    { e with rigid := some r.1, transform := r.2 }

/-- Method `Game.handleBoundary` (src/unnamed/part_000, lines 164–187): requires
all three components, else a no-op; per axis an `if / else if` clamps
against the low edge first, forcing the velocity's sign with `Math.abs`. -/
def handleBoundary (width height : ℚ) (e : Entity) : Entity :=
  match e.transform, e.rigid, e.collider with
  | some t, some rb, some col =>
    let radius := col.radius
    let xv :=
      if t.position.x - radius < 0 then (radius, |rb.velocity.x|)
      else if t.position.x + radius > width then (width - radius, -|rb.velocity.x|)
      else (t.position.x, rb.velocity.x)
    let yv :=
      if t.position.y - radius < 0 then (radius, |rb.velocity.y|)
      else if t.position.y + radius > height then (height - radius, -|rb.velocity.y|)
      else (t.position.y, rb.velocity.y)
    { e with
        transform := some { t with position := ⟨xv.1, yv.1⟩ },
        rigid := some { rb with velocity := ⟨xv.2, yv.2⟩ } }
  | _, _, _ => e

/-- One inner-loop iteration of `CollisionSystem.update`
(src/unnamed/part_000, lines 245–289) for a fixed outer entity `a` whose
`Collider` is `aCol`, against inner entity `b`.  If `b` has no `Collider`
the iteration is `continue`.  Otherwise the source dereferences
`bTransform.position` and `aTransform.position` unconditionally — a missing
`Transform` is a `TypeError`, modelled as `none`.  Inside an overlap the
positional correction and the impulse run only when both bodies are rigid;
the impulse step is additionally skipped when `velAlongNormal > 0`. -/
def pairResolve (hyp : ℚ → ℚ → ℚ) (aCol : Collider) (a b : Entity) :
    Option (Entity × Entity) :=
  match b.collider with
  | none => some (a, b)
  | some bCol =>
    match a.transform, b.transform with
    | some aT, some bT =>
      let dx := bT.position.x - aT.position.x
      let dy := bT.position.y - aT.position.y
      let dist := hyp dx dy
      let minDist := aCol.radius + bCol.radius
      if dist < minDist then
        let overlap := minDist - dist
        let nx := if dist = 0 then 0 else dx / dist
        let ny := if dist = 0 then 0 else dy / dist
        match a.rigid, b.rigid with
        | some aR, some bR =>
          let totalMass := aR.mass + bR.mass
          let correctionA := overlap * (bR.mass / totalMass)
          let correctionB := overlap * (aR.mass / totalMass)
          let aT' := { aT with position :=
            ⟨aT.position.x - nx * correctionA, aT.position.y - ny * correctionA⟩ }
          let bT' := { bT with position :=
            ⟨bT.position.x + nx * correctionB, bT.position.y + ny * correctionB⟩ }
          let relVelX := bR.velocity.x - aR.velocity.x
          let relVelY := bR.velocity.y - aR.velocity.y
          let velAlongNormal := relVelX * nx + relVelY * ny
          if velAlongNormal > 0 then
            some ({ a with transform := some aT' }, { b with transform := some bT' })
          else
            let e := min aR.restitution bR.restitution
            let jImp := -(1 + e) * velAlongNormal / (1 / aR.mass + 1 / bR.mass)
            let impulseX := jImp * nx
            let impulseY := jImp * ny
            let aR' := { aR with velocity :=
              ⟨aR.velocity.x - impulseX / aR.mass, aR.velocity.y - impulseY / aR.mass⟩ }
            let bR' := { bR with velocity :=
              ⟨bR.velocity.x + impulseX / bR.mass, bR.velocity.y + impulseY / bR.mass⟩ }
            some ({ a with transform := some aT', rigid := some aR' },
                  { b with transform := some bT', rigid := some bR' })
        | _, _ => some (a, b)
      else some (a, b)
    | _, _ => none

/-- The inner `j` loop of `CollisionSystem.update` (src/unnamed/part_000,
lines 245–289): entity `a` (with collider `aCol`) is resolved against each
later entity in list order, threading the updates to `a` through. -/
def resolveAgainst (hyp : ℚ → ℚ → ℚ) (aCol : Collider) :
    Entity → List Entity → Option (Entity × List Entity)
  | a, [] => some (a, [])
  | a, b :: rest =>
    match pairResolve hyp aCol a b with
    | none => none
    | some (a', b') =>
      match resolveAgainst hyp aCol a' rest with
      | none => none
      | some (a'', rest') => some (a'', b' :: rest')

theorem resolveAgainst_length (hyp : ℚ → ℚ → ℚ) (aCol : Collider) :
    ∀ (l : List Entity) (a : Entity) (r : Entity × List Entity),
      resolveAgainst hyp aCol a l = some r → r.2.length = l.length := by
  intro l
  induction l with
  | nil =>
    intro a r h
    simp only [resolveAgainst, Option.some.injEq] at h
    subst h
    rfl
  | cons b rest ih =>
    intro a r h
    cases hp : pairResolve hyp aCol a b with
    | none => simp only [resolveAgainst, hp] at h; exact absurd h (by simp)
    | some p =>
      obtain ⟨a', b'⟩ := p
      cases hr : resolveAgainst hyp aCol a' rest with
      | none => simp only [resolveAgainst, hp, hr] at h; exact absurd h (by simp)
      | some q =>
        obtain ⟨a'', rest'⟩ := q
        simp only [resolveAgainst, hp, hr, Option.some.injEq] at h
        subst h
        have := ih a' (a'', rest') hr
        simpa using this

/-- The outer `i` loop of `CollisionSystem.update` (src/unnamed/part_000,
lines 236–292), fuel-indexed: the loop runs exactly one iteration per entity
of the original list, and each inner pass keeps the tail's length
(`resolveAgainst_length`), so the iteration count is passed up front to make
the recursion structural.  An outer entity without a `Collider` is skipped
entirely; otherwise it is resolved against every later entity (ascending
index pairs `i < j`), and the scan continues on the updated tail. -/
def collisionScanGo (hyp : ℚ → ℚ → ℚ) : Nat → List Entity → Option (List Entity)
  | _, [] => some []
  | 0, _ :: _ => none
  | n + 1, a :: rest =>
    match a.collider with
    | none =>
      match collisionScanGo hyp n rest with
      | none => none
      | some rest' => some (a :: rest')
    | some aCol =>
      match resolveAgainst hyp aCol a rest with
      | none => none
      | some ar =>
        match collisionScanGo hyp n ar.2 with
        | none => none
        | some rest' => some (ar.1 :: rest')

/-- Method `CollisionSystem.update` (src/unnamed/part_000, lines 236–292): one
outer iteration per entity of the scene's object list. -/
def collisionScan (hyp : ℚ → ℚ → ℚ) (objs : List Entity) : Option (List Entity) :=
  collisionScanGo hyp objs.length objs

/-- The simulation driver's state (src/unnamed/part_000, `Game`): canvas
size, the boundary flag, and the ordered entity list.  The `CollisionSystem`
is modelled as the game's (sole) registered plugin. -/
structure Game where
  width : ℚ
  height : ℚ
  boundaryEnabled : Bool
  objects : List Entity
deriving DecidableEq

/-- The per-object part of a tick (src/unnamed/part_000, lines 136–142):
`obj.update(dt)` then, when enabled, inline boundary handling. -/
def objectTick (g : Game) (dt : ℚ) (e : Entity) : Entity :=
  let e1 := Entity.update e dt
  if g.boundaryEnabled then handleBoundary g.width g.height e1 else e1

/-- Method `Game.update` (src/unnamed/part_000, lines 129–145), with the
`CollisionSystem` as the registered plugin: the plugin loop runs FIRST
(so the collision pass), then each object integrates and is boundary
handled in place. -/
def Game.update (hyp : ℚ → ℚ → ℚ) (g : Game) (dt : ℚ) : Option Game :=
  match collisionScan hyp g.objects with
  | none => none
  | some objs1 => some { g with objects := objs1.map (objectTick g dt) }

/-- Modelled from the spec's words (§2 control flow, §5 ordering guarantee),
for comparison with `Game.update`: every entity integrates (and is boundary
handled) first, and only then does the collision resolver inspect the
Transforms. -/
def specOrderUpdate (hyp : ℚ → ℚ → ℚ) (g : Game) (dt : ℚ) : Option Game :=
  let objs1 := g.objects.map (objectTick g dt)
  match collisionScan hyp objs1 with
  | none => none
  | some objs2 => some { g with objects := objs2 }

/-- The resolve-first tick order, written out as a composition: the
collision pass reads the incoming (previous-tick) Transforms, and
integration plus boundary handling are applied to its output. -/
def resolveFirstUpdate (hyp : ℚ → ℚ → ℚ) (g : Game) (dt : ℚ) : Option Game :=
  (collisionScan hyp g.objects).map
    (fun objs1 => { g with objects := objs1.map (objectTick g dt) })

/-- A concrete stand-in for `Math.hypot` that is exact on axis-aligned
inputs: `|dx| + |dy|` agrees with the Euclidean norm whenever one of the
two arguments is zero. -/
def absHyp (dx dy : ℚ) : ℚ := |dx| + |dy|

/-- Projection: the x coordinate of an entity's position, when it has a
`Transform`. -/
def posX (e : Entity) : Option ℚ := e.transform.map (fun t => t.position.x)

/-- Projection: the y coordinate of an entity's position, when it has a
`Transform`. -/
def posY (e : Entity) : Option ℚ := e.transform.map (fun t => t.position.y)

/-- Projection: the x component of an entity's velocity, when it has a
`RigidBody`. -/
def velX (e : Entity) : Option ℚ := e.rigid.map (fun rb => rb.velocity.x)

/-- Projection: the y component of an entity's velocity, when it has a
`RigidBody`. -/
def velY (e : Entity) : Option ℚ := e.rigid.map (fun rb => rb.velocity.y)

/-- Unfolding lemma: on an overlapping pair (`dist < minDist`, `dist ≠ 0`)
whose two entities both carry `Transform` and `RigidBody`, `pairResolve`
returns the positional correction, plus the impulse when the pair is not
separating. -/
theorem pairResolve_overlap_eq (hyp : ℚ → ℚ → ℚ) (aCol bCol : Collider)
    (ca : Option Collider) (aT bT : Transform) (aR bR : RigidBody)
    (hcol : hyp (bT.position.x - aT.position.x) (bT.position.y - aT.position.y) <
      aCol.radius + bCol.radius)
    (hd0 : hyp (bT.position.x - aT.position.x) (bT.position.y - aT.position.y) ≠ 0) :
    pairResolve hyp aCol ⟨some aT, some aR, ca⟩ ⟨some bT, some bR, some bCol⟩ =
      (let dx := bT.position.x - aT.position.x
       let dy := bT.position.y - aT.position.y
       let dist := hyp dx dy
       let overlap := aCol.radius + bCol.radius - dist
       let nx := dx / dist
       let ny := dy / dist
       let correctionA := overlap * (bR.mass / (aR.mass + bR.mass))
       let correctionB := overlap * (aR.mass / (aR.mass + bR.mass))
       let aT' := { aT with position :=
         (⟨aT.position.x - nx * correctionA, aT.position.y - ny * correctionA⟩ : Vec2) }
       let bT' := { bT with position :=
         (⟨bT.position.x + nx * correctionB, bT.position.y + ny * correctionB⟩ : Vec2) }
       let velAlongNormal :=
         (bR.velocity.x - aR.velocity.x) * nx + (bR.velocity.y - aR.velocity.y) * ny
       if velAlongNormal > 0 then
         some ((⟨some aT', some aR, ca⟩ : Entity), (⟨some bT', some bR, some bCol⟩ : Entity))
       else
         let e := min aR.restitution bR.restitution
         let jImp := -(1 + e) * velAlongNormal / (1 / aR.mass + 1 / bR.mass)
         let aR' := { aR with velocity :=
           (⟨aR.velocity.x - jImp * nx / aR.mass, aR.velocity.y - jImp * ny / aR.mass⟩ : Vec2) }
         let bR' := { bR with velocity :=
           (⟨bR.velocity.x + jImp * nx / bR.mass, bR.velocity.y + jImp * ny / bR.mass⟩ : Vec2) }
         some ((⟨some aT', some aR', ca⟩ : Entity), (⟨some bT', some bR', some bCol⟩ : Entity))) := by
  simp only [pairResolve, if_pos hcol, if_neg hd0]

/-- C3: for an overlapping pair (`0 < dist < radiusA + radiusB`) whose
entities both carry `Transform`, `Collider` and `RigidBody`, the resolver's
positional correction moves A backward along the unit normal
`n = delta/dist` by `overlap × massB/(massA+massB)` and B forward by
`overlap × massA/(massA+massB)`; the combined position shift along the
normal equals the original overlap, and the heavier body moves less. -/
theorem c3_mass_weighted_correction (hyp : ℚ → ℚ → ℚ)
    (rA rB aX aY bX bY aRot aAng aSc bRot bAng bSc : ℚ)
    (aR bR : RigidBody) (ca : Option Collider) (a' b' : Entity) (aT' bT' : Transform)
    (hma : 0 < aR.mass) (hmb : 0 < bR.mass)
    (hdpos : 0 < hyp (bX - aX) (bY - aY))
    (hpyth : hyp (bX - aX) (bY - aY) ^ 2 = (bX - aX) ^ 2 + (bY - aY) ^ 2)
    (hcol : hyp (bX - aX) (bY - aY) < rA + rB)
    (hres : pairResolve hyp ⟨rA⟩ ⟨some ⟨⟨aX, aY⟩, aRot, aAng, aSc⟩, some aR, ca⟩
      ⟨some ⟨⟨bX, bY⟩, bRot, bAng, bSc⟩, some bR, some ⟨rB⟩⟩ = some (a', b'))
    (ha : a'.transform = some aT') (hb : b'.transform = some bT') :
    ((aT'.position.x - aX) * ((bX - aX) / hyp (bX - aX) (bY - aY)) +
        (aT'.position.y - aY) * ((bY - aY) / hyp (bX - aX) (bY - aY)) =
      -((rA + rB - hyp (bX - aX) (bY - aY)) * (bR.mass / (aR.mass + bR.mass)))) ∧
    ((bT'.position.x - bX) * ((bX - aX) / hyp (bX - aX) (bY - aY)) +
        (bT'.position.y - bY) * ((bY - aY) / hyp (bX - aX) (bY - aY)) =
      (rA + rB - hyp (bX - aX) (bY - aY)) * (aR.mass / (aR.mass + bR.mass))) ∧
    (((bT'.position.x - bX) * ((bX - aX) / hyp (bX - aX) (bY - aY)) +
        (bT'.position.y - bY) * ((bY - aY) / hyp (bX - aX) (bY - aY))) -
      ((aT'.position.x - aX) * ((bX - aX) / hyp (bX - aX) (bY - aY)) +
        (aT'.position.y - aY) * ((bY - aY) / hyp (bX - aX) (bY - aY))) =
      rA + rB - hyp (bX - aX) (bY - aY)) ∧
    (bR.mass < aR.mass →
      |(aT'.position.x - aX) * ((bX - aX) / hyp (bX - aX) (bY - aY)) +
        (aT'.position.y - aY) * ((bY - aY) / hyp (bX - aX) (bY - aY))| <
      |(bT'.position.x - bX) * ((bX - aX) / hyp (bX - aX) (bY - aY)) +
        (bT'.position.y - bY) * ((bY - aY) / hyp (bX - aX) (bY - aY))|) := by
  have hd0 : hyp (bX - aX) (bY - aY) ≠ 0 := ne_of_gt hdpos
  have hS : aR.mass + bR.mass ≠ 0 := by positivity
  have hov : 0 < rA + rB - hyp (bX - aX) (bY - aY) := by linarith
  have hunit : ((bX - aX) / hyp (bX - aX) (bY - aY)) ^ 2 +
      ((bY - aY) / hyp (bX - aX) (bY - aY)) ^ 2 = 1 := by
    field_simp
    linarith [hpyth]
  rw [pairResolve_overlap_eq hyp ⟨rA⟩ ⟨rB⟩ ca ⟨⟨aX, aY⟩, aRot, aAng, aSc⟩
    ⟨⟨bX, bY⟩, bRot, bAng, bSc⟩ aR bR hcol hd0] at hres
  dsimp only at hres
  split at hres <;>
  · simp only [Option.some.injEq, Prod.mk.injEq] at hres
    obtain ⟨ha', hb'⟩ := hres
    subst ha'
    subst hb'
    simp only [Option.some.injEq] at ha hb
    subst ha
    subst hb
    dsimp only
    have k1 : (aX - (bX - aX) / hyp (bX - aX) (bY - aY) *
          ((rA + rB - hyp (bX - aX) (bY - aY)) * (bR.mass / (aR.mass + bR.mass))) - aX) *
          ((bX - aX) / hyp (bX - aX) (bY - aY)) +
        (aY - (bY - aY) / hyp (bX - aX) (bY - aY) *
          ((rA + rB - hyp (bX - aX) (bY - aY)) * (bR.mass / (aR.mass + bR.mass))) - aY) *
          ((bY - aY) / hyp (bX - aX) (bY - aY)) =
        -((rA + rB - hyp (bX - aX) (bY - aY)) * (bR.mass / (aR.mass + bR.mass))) := by
      linear_combination (-((rA + rB - hyp (bX - aX) (bY - aY)) *
        (bR.mass / (aR.mass + bR.mass)))) * hunit
    have k2 : (bX + (bX - aX) / hyp (bX - aX) (bY - aY) *
          ((rA + rB - hyp (bX - aX) (bY - aY)) * (aR.mass / (aR.mass + bR.mass))) - bX) *
          ((bX - aX) / hyp (bX - aX) (bY - aY)) +
        (bY + (bY - aY) / hyp (bX - aX) (bY - aY) *
          ((rA + rB - hyp (bX - aX) (bY - aY)) * (aR.mass / (aR.mass + bR.mass))) - bY) *
          ((bY - aY) / hyp (bX - aX) (bY - aY)) =
        (rA + rB - hyp (bX - aX) (bY - aY)) * (aR.mass / (aR.mass + bR.mass)) := by
      linear_combination ((rA + rB - hyp (bX - aX) (bY - aY)) *
        (aR.mass / (aR.mass + bR.mass))) * hunit
    have hsum : (rA + rB - hyp (bX - aX) (bY - aY)) * (bR.mass / (aR.mass + bR.mass)) +
        (rA + rB - hyp (bX - aX) (bY - aY)) * (aR.mass / (aR.mass + bR.mass)) =
        rA + rB - hyp (bX - aX) (bY - aY) := by
      field_simp
      ring
    refine ⟨k1, k2, by linarith, ?_⟩
    intro hmass
    rw [k1, k2]
    have hcorr : (rA + rB - hyp (bX - aX) (bY - aY)) * (bR.mass / (aR.mass + bR.mass)) <
        (rA + rB - hyp (bX - aX) (bY - aY)) * (aR.mass / (aR.mass + bR.mass)) := by
      have hpos : 0 < (rA + rB - hyp (bX - aX) (bY - aY)) *
          ((aR.mass - bR.mass) / (aR.mass + bR.mass)) := by
        apply mul_pos hov
        apply div_pos (by linarith) (by positivity)
      have hring : (rA + rB - hyp (bX - aX) (bY - aY)) * (aR.mass / (aR.mass + bR.mass)) -
          (rA + rB - hyp (bX - aX) (bY - aY)) * (bR.mass / (aR.mass + bR.mass)) =
          (rA + rB - hyp (bX - aX) (bY - aY)) * ((aR.mass - bR.mass) / (aR.mass + bR.mass)) := by
        ring
      linarith [hpos, hring]
    have hAnn : 0 ≤ (rA + rB - hyp (bX - aX) (bY - aY)) * (bR.mass / (aR.mass + bR.mass)) := by
      positivity
    have hBnn : 0 ≤ (rA + rB - hyp (bX - aX) (bY - aY)) * (aR.mass / (aR.mass + bR.mass)) := by
      positivity
    rw [abs_neg, abs_of_nonneg hAnn, abs_of_nonneg hBnn]
    exact hcorr

/-- C4: for a colliding pair with both RigidBodies and
`velAlongNormal ≤ 0`, the impulse with `e = min(restitutionA, restitutionB)`
and `j = −(1+e)·velAlongNormal/(1/massA + 1/massB)` leaves the post-impulse
relative velocity along the unit normal equal to `−e` times the pre-impulse
relative velocity along the normal (exact arithmetic). -/
theorem c4_restitution_normal_speed (hyp : ℚ → ℚ → ℚ)
    (rA rB aX aY bX bY aRot aAng aSc bRot bAng bSc : ℚ)
    (aR bR : RigidBody) (ca : Option Collider) (a' b' : Entity) (aR' bR' : RigidBody)
    (hma : 0 < aR.mass) (hmb : 0 < bR.mass)
    (hdpos : 0 < hyp (bX - aX) (bY - aY))
    (hpyth : hyp (bX - aX) (bY - aY) ^ 2 = (bX - aX) ^ 2 + (bY - aY) ^ 2)
    (hcol : hyp (bX - aX) (bY - aY) < rA + rB)
    (hsep : (bR.velocity.x - aR.velocity.x) * ((bX - aX) / hyp (bX - aX) (bY - aY)) +
      (bR.velocity.y - aR.velocity.y) * ((bY - aY) / hyp (bX - aX) (bY - aY)) ≤ 0)
    (hres : pairResolve hyp ⟨rA⟩ ⟨some ⟨⟨aX, aY⟩, aRot, aAng, aSc⟩, some aR, ca⟩
      ⟨some ⟨⟨bX, bY⟩, bRot, bAng, bSc⟩, some bR, some ⟨rB⟩⟩ = some (a', b'))
    (hra : a'.rigid = some aR') (hrb : b'.rigid = some bR') :
    (bR'.velocity.x - aR'.velocity.x) * ((bX - aX) / hyp (bX - aX) (bY - aY)) +
      (bR'.velocity.y - aR'.velocity.y) * ((bY - aY) / hyp (bX - aX) (bY - aY)) =
    -(min aR.restitution bR.restitution) *
      ((bR.velocity.x - aR.velocity.x) * ((bX - aX) / hyp (bX - aX) (bY - aY)) +
        (bR.velocity.y - aR.velocity.y) * ((bY - aY) / hyp (bX - aX) (bY - aY))) := by
  have hd0 : hyp (bX - aX) (bY - aY) ≠ 0 := ne_of_gt hdpos
  have hunit : ((bX - aX) / hyp (bX - aX) (bY - aY)) ^ 2 +
      ((bY - aY) / hyp (bX - aX) (bY - aY)) ^ 2 = 1 := by
    field_simp
    linarith [hpyth]
  rw [pairResolve_overlap_eq hyp ⟨rA⟩ ⟨rB⟩ ca ⟨⟨aX, aY⟩, aRot, aAng, aSc⟩
    ⟨⟨bX, bY⟩, bRot, bAng, bSc⟩ aR bR hcol hd0] at hres
  dsimp only at hres
  split at hres
  · exact absurd (by assumption) (not_lt.mpr hsep)
  · simp only [Option.some.injEq, Prod.mk.injEq] at hres
    obtain ⟨ha', hb'⟩ := hres
    subst ha'
    subst hb'
    simp only [Option.some.injEq] at hra hrb
    subst hra
    subst hrb
    dsimp only
    set NX := (bX - aX) / hyp (bX - aX) (bY - aY) with hNX
    set NY := (bY - aY) / hyp (bX - aX) (bY - aY) with hNY
    set V := (bR.velocity.x - aR.velocity.x) * NX + (bR.velocity.y - aR.velocity.y) * NY
      with hV
    set E := min aR.restitution bR.restitution with hE
    set S := 1 / aR.mass + 1 / bR.mass with hS2
    set J := -(1 + E) * V / S with hJdef
    have hSne : S ≠ 0 := by rw [hS2]; positivity
    have hJS : J * S = -(1 + E) * V := by
      rw [hJdef]
      field_simp
    linear_combination (J * S) * hunit + hJS - hV - (J * (NX ^ 2 + NY ^ 2)) * hS2

/-- C10: for a colliding pair with both RigidBodies, the impulse
application preserves total linear momentum: `massA·velA + massB·velB` is
the same before and after one pair resolution, for every restitution and
every normal, and the masses themselves are unchanged. -/
theorem c10_momentum_conserved (hyp : ℚ → ℚ → ℚ)
    (rA rB aX aY bX bY aRot aAng aSc bRot bAng bSc : ℚ)
    (aR bR : RigidBody) (ca : Option Collider) (a' b' : Entity) (aR' bR' : RigidBody)
    (hma : 0 < aR.mass) (hmb : 0 < bR.mass)
    (hdpos : 0 < hyp (bX - aX) (bY - aY))
    (hcol : hyp (bX - aX) (bY - aY) < rA + rB)
    (hres : pairResolve hyp ⟨rA⟩ ⟨some ⟨⟨aX, aY⟩, aRot, aAng, aSc⟩, some aR, ca⟩
      ⟨some ⟨⟨bX, bY⟩, bRot, bAng, bSc⟩, some bR, some ⟨rB⟩⟩ = some (a', b'))
    (hra : a'.rigid = some aR') (hrb : b'.rigid = some bR') :
    aR'.mass = aR.mass ∧ bR'.mass = bR.mass ∧
    aR'.mass * aR'.velocity.x + bR'.mass * bR'.velocity.x =
      aR.mass * aR.velocity.x + bR.mass * bR.velocity.x ∧
    aR'.mass * aR'.velocity.y + bR'.mass * bR'.velocity.y =
      aR.mass * aR.velocity.y + bR.mass * bR.velocity.y := by
  have hd0 : hyp (bX - aX) (bY - aY) ≠ 0 := ne_of_gt hdpos
  rw [pairResolve_overlap_eq hyp ⟨rA⟩ ⟨rB⟩ ca ⟨⟨aX, aY⟩, aRot, aAng, aSc⟩
    ⟨⟨bX, bY⟩, bRot, bAng, bSc⟩ aR bR hcol hd0] at hres
  dsimp only at hres
  split at hres
  · simp only [Option.some.injEq, Prod.mk.injEq] at hres
    obtain ⟨ha', hb'⟩ := hres
    subst ha'
    subst hb'
    simp only [Option.some.injEq] at hra hrb
    subst hra
    subst hrb
    exact ⟨rfl, rfl, rfl, rfl⟩
  · simp only [Option.some.injEq, Prod.mk.injEq] at hres
    obtain ⟨ha', hb'⟩ := hres
    subst ha'
    subst hb'
    simp only [Option.some.injEq] at hra hrb
    subst hra
    subst hrb
    refine ⟨rfl, rfl, ?_, ?_⟩ <;>
    · dsimp only
      field_simp
      ring

/-- A one-entity scan is a no-op: the inner loop has no later entity to
visit. -/
theorem collisionScanGo_singleton (hyp : ℚ → ℚ → ℚ) (x : Entity) :
    collisionScanGo hyp 1 [x] = some [x] := by
  cases hc : x.collider <;> simp [collisionScanGo, resolveAgainst, hc]

/-- A full resolver pass over a two-entity scene is the single pair
iteration: whatever `pairResolve` does to the pair is the whole result. -/
theorem collisionScan_pair_eq (hyp : ℚ → ℚ → ℚ) (a b : Entity) (aCol : Collider)
    (p : Entity × Entity) (hac : a.collider = some aCol)
    (hp : pairResolve hyp aCol a b = some p) :
    collisionScan hyp [a, b] = some [p.1, p.2] := by
  obtain ⟨p1, p2⟩ := p
  rcases hc2 : p2.collider with _ | bcol <;>
    simp [collisionScan, collisionScanGo, resolveAgainst, hac, hp, hc2]

/-- C1 counterexample: a two-entity scene (A at x=0 moving right at 20,
B at rest at x=30, radii 10, no overlap yet) where the driver's actual tick
(plugins first, then integration) differs observably from the spec-order
tick (integration first, then the resolver): in the actual tick the
resolver sees the pre-integration distance 30 and does nothing, so no
collision is resolved although the integrated positions (20 and 30) overlap. -/
theorem c1_counterexample :
    Game.update absHyp
      ⟨1000, 1000, false,
        [⟨some ⟨⟨0, 0⟩, 0, 0, 1⟩, some ⟨⟨20, 0⟩, 0, 0, 0, 0, 1, 0⟩, some ⟨10⟩⟩,
         ⟨some ⟨⟨30, 0⟩, 0, 0, 1⟩, some ⟨⟨0, 0⟩, 0, 0, 0, 0, 1, 0⟩, some ⟨10⟩⟩]⟩ 1 ≠
    specOrderUpdate absHyp
      ⟨1000, 1000, false,
        [⟨some ⟨⟨0, 0⟩, 0, 0, 1⟩, some ⟨⟨20, 0⟩, 0, 0, 0, 0, 1, 0⟩, some ⟨10⟩⟩,
         ⟨some ⟨⟨30, 0⟩, 0, 0, 1⟩, some ⟨⟨0, 0⟩, 0, 0, 0, 0, 1, 0⟩, some ⟨10⟩⟩]⟩ 1 := by
  norm_num [Game.update, specOrderUpdate, collisionScan, collisionScanGo, resolveAgainst,
    pairResolve, objectTick, Entity.update, RigidBody.update, absHyp, Game.mk.injEq]

/-- C1 amended: in every tick the driver runs its plugins — hence the
collision resolver — BEFORE any entity integrates, so the resolver reads
each Transform in its pre-integration (previous-tick) state, and
integration plus boundary handling for the tick are applied to the
resolver's output. -/
theorem c1_resolver_runs_first (hyp : ℚ → ℚ → ℚ) (g : Game) (dt : ℚ) :
    Game.update hyp g dt = resolveFirstUpdate hyp g dt := by
  cases h : collisionScan hyp g.objects <;>
    simp [Game.update, resolveFirstUpdate, h]

/-- C2: for `dt ≥ 0` and an entity with a Transform and a RigidBody
with gravity `g`, buoyancy 0, friction 0, zero initial velocity, one
`RigidBody.update` sets `velocity.y = g·dt` and adds exactly `g·dt·dt` to
`position.y` (and nothing to `position.x`). -/
theorem c2_gravity_tick (g dt : ℚ) (t : Transform) (rb : RigidBody)
    (hdt : 0 ≤ dt) (hg : rb.gravity = g) (hb : rb.buoyancy = 0)
    (hf : rb.friction = 0) (hv : rb.velocity = ⟨0, 0⟩) :
    (RigidBody.update rb (some t) dt).1.velocity.y = g * dt ∧
    (RigidBody.update rb (some t) dt).2 = some { t with
      position := ⟨t.position.x, t.position.y + g * dt * dt⟩,
      angle := t.angle + rb.angularVelocity * dt } := by
  simp only [RigidBody.update, hg, hb, hf, hv]
  norm_num

/-- C2 witness at `g = 980`, `dt = 1`, starting at the origin. -/
theorem c2_witness :
    (RigidBody.update ⟨⟨0, 0⟩, 0, 980, 0, 7/10, 1, 0⟩ (some ⟨⟨0, 0⟩, 0, 0, 1⟩) 1).1.velocity.y =
      980 * 1 ∧
    (RigidBody.update ⟨⟨0, 0⟩, 0, 980, 0, 7/10, 1, 0⟩ (some ⟨⟨0, 0⟩, 0, 0, 1⟩) 1).2 =
      some ⟨⟨0, 0 + 980 * 1 * 1⟩, 0, 0 + 0 * 1, 1⟩ :=
  c2_gravity_tick 980 1 ⟨⟨0, 0⟩, 0, 0, 1⟩ ⟨⟨0, 0⟩, 0, 980, 0, 7/10, 1, 0⟩
    (by norm_num) rfl rfl rfl rfl

/-- C5 counterexample: canvas width 10, collider radius 20, entity at
`x = 5`.  The high-edge condition `position.x + radius > width` holds
(25 > 10), yet boundary handling sets `position.x` to `radius = 20`, not to
`width − radius = −10`: the low-edge clamp takes precedence through the
source's `else if`. -/
theorem c5_counterexample :
    (5 : ℚ) + 20 > 10 ∧
    posX (handleBoundary 10 100
      ⟨some ⟨⟨5, 50⟩, 0, 0, 1⟩, some ⟨⟨3, 0⟩, 0, 0, 0, 0, 1, 0⟩, some ⟨20⟩⟩) = some 20 ∧
    (20 : ℚ) ≠ 10 - 20 := by
  norm_num [handleBoundary, posX]

/-- C5 amended: per axis, if `position − radius` crosses the low edge
the position is set to exactly `radius` and the velocity to its absolute
value (non-negative, not merely negated); if the low edge is NOT crossed
and `position + radius` crosses the high edge, the position is set to
`width/height − radius` and the velocity to minus its absolute value
(non-positive).  When both edges are crossed (diameter exceeding the
canvas), the low-edge clamp wins. -/
theorem c5_boundary_clamp (width height : ℚ) (t : Transform) (rb : RigidBody)
    (col : Collider) :
    (t.position.x - col.radius < 0 →
      posX (handleBoundary width height ⟨some t, some rb, some col⟩) = some col.radius ∧
      velX (handleBoundary width height ⟨some t, some rb, some col⟩) = some |rb.velocity.x|) ∧
    (¬ t.position.x - col.radius < 0 → t.position.x + col.radius > width →
      posX (handleBoundary width height ⟨some t, some rb, some col⟩) =
        some (width - col.radius) ∧
      velX (handleBoundary width height ⟨some t, some rb, some col⟩) =
        some (-|rb.velocity.x|)) ∧
    (t.position.y - col.radius < 0 →
      posY (handleBoundary width height ⟨some t, some rb, some col⟩) = some col.radius ∧
      velY (handleBoundary width height ⟨some t, some rb, some col⟩) = some |rb.velocity.y|) ∧
    (¬ t.position.y - col.radius < 0 → t.position.y + col.radius > height →
      posY (handleBoundary width height ⟨some t, some rb, some col⟩) =
        some (height - col.radius) ∧
      velY (handleBoundary width height ⟨some t, some rb, some col⟩) =
        some (-|rb.velocity.y|)) := by
  refine ⟨fun h1 => ?_, fun h1 h2 => ?_, fun h1 => ?_, fun h1 h2 => ?_⟩
  · simp only [handleBoundary, posX, velX]
    rw [if_pos h1]
    simp
  · simp only [handleBoundary, posX, velX]
    rw [if_neg h1, if_pos h2]
    simp
  · simp only [handleBoundary, posY, velY]
    rw [if_pos h1]
    simp
  · simp only [handleBoundary, posY, velY]
    rw [if_neg h1, if_pos h2]
    simp

/-- C5 witness: an entity crossing the low x edge and the high y edge
of a 100×100 canvas is clamped to `x = 10`, `y = 90`, with `velocity.x`
forced to `|−3|` and `velocity.y` to `−|4|`. -/
theorem c5_witness :
    posX (handleBoundary 100 100
      ⟨some ⟨⟨5, 96⟩, 0, 0, 1⟩, some ⟨⟨-3, 4⟩, 0, 0, 0, 0, 1, 0⟩, some ⟨10⟩⟩) = some 10 ∧
    velX (handleBoundary 100 100
      ⟨some ⟨⟨5, 96⟩, 0, 0, 1⟩, some ⟨⟨-3, 4⟩, 0, 0, 0, 0, 1, 0⟩, some ⟨10⟩⟩) =
      some |(-3 : ℚ)| ∧
    posY (handleBoundary 100 100
      ⟨some ⟨⟨5, 96⟩, 0, 0, 1⟩, some ⟨⟨-3, 4⟩, 0, 0, 0, 0, 1, 0⟩, some ⟨10⟩⟩) =
      some (100 - 10) ∧
    velY (handleBoundary 100 100
      ⟨some ⟨⟨5, 96⟩, 0, 0, 1⟩, some ⟨⟨-3, 4⟩, 0, 0, 0, 0, 1, 0⟩, some ⟨10⟩⟩) =
      some (-|(4 : ℚ)|) := by
  obtain ⟨h1, h2, h3, h4⟩ := c5_boundary_clamp 100 100 ⟨⟨5, 96⟩, 0, 0, 1⟩
    ⟨⟨-3, 4⟩, 0, 0, 0, 0, 1, 0⟩ ⟨10⟩
  have hx := h1 (by norm_num)
  have hy := h4 (by norm_num) (by norm_num)
  exact ⟨hx.1, hx.2, hy.1, hy.2⟩

/-- C6: a pair of overlapping collider-carrying entities of which at
least one lacks a RigidBody: a resolver pass over the two leaves both
entities entirely unchanged (no velocity change, no position change). -/
theorem c6_ghost_collider_inert (hyp : ℚ → ℚ → ℚ) (a b : Entity)
    (aCol bCol : Collider) (aT bT : Transform)
    (hac : a.collider = some aCol) (hbc : b.collider = some bCol)
    (hat : a.transform = some aT) (hbt : b.transform = some bT)
    (hover : hyp (bT.position.x - aT.position.x) (bT.position.y - aT.position.y) <
      aCol.radius + bCol.radius)
    (hghost : a.rigid = none ∨ b.rigid = none) :
    collisionScan hyp [a, b] = some [a, b] := by
  have hp : pairResolve hyp aCol a b = some (a, b) := by
    obtain ⟨ta, ra, ca⟩ := a
    obtain ⟨tb, rbb, cb⟩ := b
    simp only at hac hbc hat hbt hghost
    subst hac hbc hat hbt
    rcases hghost with h | h <;> subst h
    · cases rbb <;> simp [pairResolve, if_pos hover]
    · cases ra <;> simp [pairResolve, if_pos hover]
  exact collisionScan_pair_eq hyp a b aCol (a, b) hac hp

/-- C6 witness: a collider-only entity at the origin overlapping a
dynamic one at `x = 5` (radii 10): the pass returns both unchanged. -/
theorem c6_witness :
    collisionScan absHyp
      [⟨some ⟨⟨0, 0⟩, 0, 0, 1⟩, none, some ⟨10⟩⟩,
       ⟨some ⟨⟨5, 0⟩, 0, 0, 1⟩, some ⟨⟨1, 1⟩, 0, 0, 0, 1/2, 1, 0⟩, some ⟨10⟩⟩] =
    some [⟨some ⟨⟨0, 0⟩, 0, 0, 1⟩, none, some ⟨10⟩⟩,
          ⟨some ⟨⟨5, 0⟩, 0, 0, 1⟩, some ⟨⟨1, 1⟩, 0, 0, 0, 1/2, 1, 0⟩, some ⟨10⟩⟩] :=
  c6_ghost_collider_inert absHyp _ _ ⟨10⟩ ⟨10⟩ ⟨⟨0, 0⟩, 0, 0, 1⟩ ⟨⟨5, 0⟩, 0, 0, 1⟩
    rfl rfl rfl rfl (by norm_num [absHyp]) (Or.inl rfl)

/-- C7 counterexample: in the part_000 revision of `RigidBody.update`,
with `friction = 1/2` and `angularVelocity = 1`, the angular velocity after
one tick is still `1`, not `1 × (1 − 1/2)`: that revision never damps
`angularVelocity`. -/
theorem c7_counterexample :
    (RigidBody.update ⟨⟨0, 0⟩, 1, 0, 1/2, 0, 1, 0⟩ (some ⟨⟨0, 0⟩, 0, 0, 1⟩) 1).1.angularVelocity
      = 1 ∧
    (1 : ℚ) ≠ 1 * (1 - 1/2) := by
  norm_num [RigidBody.update]

/-- C7 amended: the MiniGameKit.js revision multiplies `angularVelocity`
by `(1 − friction)` on each tick — so for `friction ∈ (0,1)` a positive
angular velocity strictly decays — while the part_000 revision leaves
`angularVelocity` unchanged (its damping covers linear velocity only). -/
theorem c7_angular_damping_by_revision (rb : RigidBody) (t : Transform) (dt : ℚ)
    (hf1 : 0 < rb.friction) (hf2 : rb.friction < 1) (hav : 0 < rb.angularVelocity) :
    (kitRigidBodyUpdate rb (some t) dt).1.angularVelocity =
      rb.angularVelocity * (1 - rb.friction) ∧
    (RigidBody.update rb (some t) dt).1.angularVelocity = rb.angularVelocity ∧
    (kitRigidBodyUpdate rb (some t) dt).1.angularVelocity < rb.angularVelocity := by
  refine ⟨rfl, rfl, ?_⟩
  have h : (kitRigidBodyUpdate rb (some t) dt).1.angularVelocity =
      rb.angularVelocity * (1 - rb.friction) := rfl
  rw [h]
  nlinarith

/-- C7 witness at `friction = 1/2`, `angularVelocity = 1`. -/
theorem c7_witness :
    (kitRigidBodyUpdate ⟨⟨0, 0⟩, 1, 0, 1/2, 0, 1, 0⟩ (some ⟨⟨0, 0⟩, 0, 0, 1⟩) 1).1.angularVelocity
      = 1 * (1 - 1/2) ∧
    (RigidBody.update ⟨⟨0, 0⟩, 1, 0, 1/2, 0, 1, 0⟩ (some ⟨⟨0, 0⟩, 0, 0, 1⟩) 1).1.angularVelocity
      = 1 ∧
    (kitRigidBodyUpdate ⟨⟨0, 0⟩, 1, 0, 1/2, 0, 1, 0⟩ (some ⟨⟨0, 0⟩, 0, 0, 1⟩) 1).1.angularVelocity
      < 1 :=
  c7_angular_damping_by_revision ⟨⟨0, 0⟩, 1, 0, 1/2, 0, 1, 0⟩ ⟨⟨0, 0⟩, 0, 0, 1⟩ 1
    (by norm_num) (by norm_num) (by norm_num)

/-- C8: two exactly coincident colliders (`dist = 0`) both with
RigidBody: the resolver pass neither fails nor divides by zero — the
normal degenerates to `(0,0)`, the impulse is zero, and both entities come
out of the pass completely unchanged. -/
theorem c8_coincident_pair_unchanged (hyp : ℚ → ℚ → ℚ) (aT bT : Transform)
    (aR bR : RigidBody) (aCol bCol : Collider)
    (hsame : bT.position = aT.position) (h0 : hyp 0 0 = 0)
    (hrad : 0 < aCol.radius + bCol.radius) :
    collisionScan hyp
      [⟨some aT, some aR, some aCol⟩, ⟨some bT, some bR, some bCol⟩] =
    some [⟨some aT, some aR, some aCol⟩, ⟨some bT, some bR, some bCol⟩] := by
  have hp : pairResolve hyp aCol ⟨some aT, some aR, some aCol⟩ ⟨some bT, some bR, some bCol⟩ =
      some (⟨some aT, some aR, some aCol⟩, ⟨some bT, some bR, some bCol⟩) := by
    simp only [pairResolve, hsame, sub_self, h0, if_pos hrad]
    norm_num
    rw [← hsame]
  exact collisionScan_pair_eq hyp _ _ aCol _ rfl hp

/-- C8 witness: two unit-mass bodies coincident at `(7, 9)` with
radii 10. -/
theorem c8_witness :
    collisionScan absHyp
      [⟨some ⟨⟨7, 9⟩, 0, 0, 1⟩, some ⟨⟨1, 2⟩, 0, 0, 0, 1/2, 1, 0⟩, some ⟨10⟩⟩,
       ⟨some ⟨⟨7, 9⟩, 0, 0, 1⟩, some ⟨⟨3, 4⟩, 0, 0, 0, 1/2, 1, 0⟩, some ⟨10⟩⟩] =
    some [⟨some ⟨⟨7, 9⟩, 0, 0, 1⟩, some ⟨⟨1, 2⟩, 0, 0, 0, 1/2, 1, 0⟩, some ⟨10⟩⟩,
          ⟨some ⟨⟨7, 9⟩, 0, 0, 1⟩, some ⟨⟨3, 4⟩, 0, 0, 0, 1/2, 1, 0⟩, some ⟨10⟩⟩] :=
  c8_coincident_pair_unchanged absHyp ⟨⟨7, 9⟩, 0, 0, 1⟩ ⟨⟨7, 9⟩, 0, 0, 1⟩
    ⟨⟨1, 2⟩, 0, 0, 0, 1/2, 1, 0⟩ ⟨⟨3, 4⟩, 0, 0, 0, 1/2, 1, 0⟩ ⟨10⟩ ⟨10⟩
    rfl (by norm_num [absHyp]) (by norm_num)

/-- C9 counterexample: an entity carrying a Collider but no Transform,
paired with a second collider-carrying entity: the resolver pass
dereferences the missing Transform — a `TypeError` in the source, `none`
in the embedding — instead of completing. -/
theorem c9_counterexample :
    collisionScan absHyp
      [⟨none, none, some ⟨10⟩⟩, ⟨some ⟨⟨0, 0⟩, 0, 0, 1⟩, none, some ⟨10⟩⟩] = none := by
  simp [collisionScan, collisionScanGo, resolveAgainst, pairResolve]

/-- Totality: `pairResolve` succeeds whenever the outer entity has a Transform and
the inner entity has one whenever it has a Collider; the outputs keep both
entities' colliders and their transform presence. -/
theorem pairResolve_total (hyp : ℚ → ℚ → ℚ) (aCol : Collider) (a b : Entity)
    (hat : a.transform.isSome)
    (hbt : b.collider.isSome → b.transform.isSome) :
    ∃ a' b', pairResolve hyp aCol a b = some (a', b') ∧
      a'.transform.isSome ∧ b'.transform.isSome = b.transform.isSome ∧
      a'.collider = a.collider ∧ b'.collider = b.collider := by
  obtain ⟨ta, ra, ca⟩ := a
  obtain ⟨tb, rbb, cb⟩ := b
  cases cb with
  | none => exact ⟨_, _, rfl, hat, rfl, rfl, rfl⟩
  | some bCol =>
    have htb : tb.isSome := hbt (by simp)
    obtain ⟨aT, rfl⟩ := Option.isSome_iff_exists.mp hat
    obtain ⟨bT, rfl⟩ := Option.isSome_iff_exists.mp htb
    simp only [pairResolve]
    split
    · rcases ra with _ | aR <;> rcases rbb with _ | bR
      · exact ⟨_, _, rfl, by simp, by simp, rfl, rfl⟩
      · exact ⟨_, _, rfl, by simp, by simp, rfl, rfl⟩
      · exact ⟨_, _, rfl, by simp, by simp, rfl, rfl⟩
      · dsimp only
        split_ifs <;> exact ⟨_, _, rfl, by simp, by simp, rfl, rfl⟩
    · exact ⟨_, _, rfl, by simp, by simp, rfl, rfl⟩

/-- The inner loop succeeds under the same conditions, and preserves the
component-presence invariant of the tail. -/
theorem resolveAgainst_total (hyp : ℚ → ℚ → ℚ) (aCol : Collider) :
    ∀ (l : List Entity) (a : Entity), a.transform.isSome →
      (∀ e ∈ l, e.collider.isSome → e.transform.isSome) →
      ∃ a' l', resolveAgainst hyp aCol a l = some (a', l') ∧
        a'.transform.isSome ∧
        (∀ e ∈ l', e.collider.isSome → e.transform.isSome) := by
  intro l
  induction l with
  | nil =>
    intro a hat _
    exact ⟨a, [], rfl, hat, by simp⟩
  | cons b rest ih =>
    intro a hat hl
    obtain ⟨a1, b1, hp, ha1, hb1t, ha1c, hb1c⟩ :=
      pairResolve_total hyp aCol a b hat (fun hc => hl b (by simp) hc)
    obtain ⟨a2, l2, hr, ha2, hl2⟩ := ih a1 ha1 (fun e he hc => hl e (by simp [he]) hc)
    refine ⟨a2, b1 :: l2, ?_, ha2, ?_⟩
    · simp [resolveAgainst, hp, hr]
    · intro e he hc
      rcases List.mem_cons.mp he with rfl | he2
      · have hbt : e.transform.isSome = b.transform.isSome := hb1t
        rw [hbt]
        exact hl b (by simp) (by rw [← hb1c]; exact hc)
      · exact hl2 e he2 hc

/-- The fueled outer loop succeeds on any list of matching length whose
collider-carrying entities all carry a Transform. -/
theorem collisionScanGo_total (hyp : ℚ → ℚ → ℚ) :
    ∀ (n : Nat) (l : List Entity), l.length = n →
      (∀ e ∈ l, e.collider.isSome → e.transform.isSome) →
      (collisionScanGo hyp n l).isSome := by
  intro n
  induction n with
  | zero =>
    intro l hlen _
    cases l with
    | nil => simp [collisionScanGo]
    | cons a rest => simp at hlen
  | succ n ih =>
    intro l hlen hl
    cases l with
    | nil => simp [collisionScanGo]
    | cons a rest =>
      have hlen2 : rest.length = n := by simp at hlen; omega
      cases hac : a.collider with
      | none =>
        have hrest := ih rest hlen2 (fun e he hc => hl e (by simp [he]) hc)
        obtain ⟨r, hr⟩ := Option.isSome_iff_exists.mp hrest
        simp [collisionScanGo, hac, hr]
      | some aCol =>
        have hat : a.transform.isSome := hl a (by simp) (by simp [hac])
        obtain ⟨a', l', hra, ha', hl'⟩ :=
          resolveAgainst_total hyp aCol rest a hat (fun e he hc => hl e (by simp [he]) hc)
        have hlen' : l'.length = n := by
          have := resolveAgainst_length hyp aCol rest a (a', l') hra
          simp at this
          omega
        have htail := ih l' hlen' hl'
        obtain ⟨r, hr⟩ := Option.isSome_iff_exists.mp htail
        simp [collisionScanGo, hac, hra, hr]

/-- C9 amended: `RigidBody.update` and boundary handling are total
(they skip entities with missing components), and a `CollisionSystem`
pass completes without error PROVIDED every entity that carries a Collider
also carries a Transform; a collider-carrying entity without a Transform
makes the pass throw as soon as any other collider-carrying entity exists
(see the counterexample). -/
theorem c9_scan_total_with_transforms (hyp : ℚ → ℚ → ℚ) (objs : List Entity)
    (h : ∀ e ∈ objs, e.collider.isSome → e.transform.isSome) :
    (collisionScan hyp objs).isSome :=
  collisionScanGo_total hyp objs.length objs rfl h

/-- C9 witness: a two-entity scene in which both collider-carrying
entities have Transforms scans successfully. -/
theorem c9_witness :
    (collisionScan absHyp
      [⟨some ⟨⟨0, 0⟩, 0, 0, 1⟩, none, some ⟨10⟩⟩,
       ⟨some ⟨⟨50, 0⟩, 0, 0, 1⟩, none, none⟩]).isSome :=
  c9_scan_total_with_transforms absHyp _ (by simp)

/-- C3 witness: bodies of mass 2 and 1 at `(0,0)` and `(15,0)`, radii
10, overlap 5: A is pushed back by `5·(1/3)` and B forward by `5·(2/3)`. -/
theorem c3_witness :
    (((-5/3 : ℚ) - 0) * ((15 - 0) / absHyp (15 - 0) (0 - 0)) +
        ((0 : ℚ) - 0) * ((0 - 0) / absHyp (15 - 0) (0 - 0)) =
      -((10 + 10 - absHyp (15 - 0) (0 - 0)) * ((1 : ℚ) / (2 + 1)))) ∧
    (((55/3 : ℚ) - 15) * ((15 - 0) / absHyp (15 - 0) (0 - 0)) +
        ((0 : ℚ) - 0) * ((0 - 0) / absHyp (15 - 0) (0 - 0)) =
      (10 + 10 - absHyp (15 - 0) (0 - 0)) * ((2 : ℚ) / (2 + 1))) ∧
    ((((55/3 : ℚ) - 15) * ((15 - 0) / absHyp (15 - 0) (0 - 0)) +
        ((0 : ℚ) - 0) * ((0 - 0) / absHyp (15 - 0) (0 - 0))) -
      (((-5/3 : ℚ) - 0) * ((15 - 0) / absHyp (15 - 0) (0 - 0)) +
        ((0 : ℚ) - 0) * ((0 - 0) / absHyp (15 - 0) (0 - 0))) =
      10 + 10 - absHyp (15 - 0) (0 - 0)) ∧
    (|((-5/3 : ℚ) - 0) * ((15 - 0) / absHyp (15 - 0) (0 - 0)) +
        ((0 : ℚ) - 0) * ((0 - 0) / absHyp (15 - 0) (0 - 0))| <
      |((55/3 : ℚ) - 15) * ((15 - 0) / absHyp (15 - 0) (0 - 0)) +
        ((0 : ℚ) - 0) * ((0 - 0) / absHyp (15 - 0) (0 - 0))|) := by
  have h := c3_mass_weighted_correction absHyp 10 10 0 0 15 0 0 0 1 0 0 1
    ⟨⟨0, 0⟩, 0, 0, 0, 1/2, 2, 0⟩ ⟨⟨0, 0⟩, 0, 0, 0, 1/2, 1, 0⟩ (some ⟨10⟩)
    ⟨some ⟨⟨-5/3, 0⟩, 0, 0, 1⟩, some ⟨⟨0, 0⟩, 0, 0, 0, 1/2, 2, 0⟩, some ⟨10⟩⟩
    ⟨some ⟨⟨55/3, 0⟩, 0, 0, 1⟩, some ⟨⟨0, 0⟩, 0, 0, 0, 1/2, 1, 0⟩, some ⟨10⟩⟩
    ⟨⟨-5/3, 0⟩, 0, 0, 1⟩ ⟨⟨55/3, 0⟩, 0, 0, 1⟩
    (by norm_num) (by norm_num) (by norm_num [absHyp]) (by norm_num [absHyp])
    (by norm_num [absHyp]) (by norm_num [pairResolve, absHyp]) rfl rfl
  exact ⟨h.1, h.2.1, h.2.2.1, h.2.2.2 (by norm_num)⟩

/-- C4 witness: equal unit masses, restitutions 1/2, A moving right at
10 into resting B: pre-impulse normal speed `−10`, post-impulse `5`. -/
theorem c4_witness :
    ((15/2 : ℚ) - 5/2) * ((15 - 0) / absHyp (15 - 0) (0 - 0)) +
      ((0 : ℚ) - 0) * ((0 - 0) / absHyp (15 - 0) (0 - 0)) =
    -(min (1/2 : ℚ) (1/2)) *
      (((0 : ℚ) - 10) * ((15 - 0) / absHyp (15 - 0) (0 - 0)) +
        ((0 : ℚ) - 0) * ((0 - 0) / absHyp (15 - 0) (0 - 0))) :=
  c4_restitution_normal_speed absHyp 10 10 0 0 15 0 0 0 1 0 0 1
    ⟨⟨10, 0⟩, 0, 0, 0, 1/2, 1, 0⟩ ⟨⟨0, 0⟩, 0, 0, 0, 1/2, 1, 0⟩ (some ⟨10⟩)
    ⟨some ⟨⟨-5/2, 0⟩, 0, 0, 1⟩, some ⟨⟨5/2, 0⟩, 0, 0, 0, 1/2, 1, 0⟩, some ⟨10⟩⟩
    ⟨some ⟨⟨35/2, 0⟩, 0, 0, 1⟩, some ⟨⟨15/2, 0⟩, 0, 0, 0, 1/2, 1, 0⟩, some ⟨10⟩⟩
    ⟨⟨5/2, 0⟩, 0, 0, 0, 1/2, 1, 0⟩ ⟨⟨15/2, 0⟩, 0, 0, 0, 1/2, 1, 0⟩
    (by norm_num) (by norm_num) (by norm_num [absHyp]) (by norm_num [absHyp])
    (by norm_num [absHyp]) (by norm_num [absHyp]) (by norm_num [pairResolve, absHyp]) rfl rfl

/-- C10 witness: the impulse of the C4 scenario conserves
`massA·velA + massB·velB` componentwise (10 = 5/2 + 15/2). -/
theorem c10_witness :
    (1 : ℚ) = 1 ∧ (1 : ℚ) = 1 ∧
    (1 : ℚ) * (5/2) + 1 * (15/2) = 1 * 10 + 1 * 0 ∧
    (1 : ℚ) * 0 + 1 * 0 = 1 * 0 + 1 * 0 :=
  c10_momentum_conserved absHyp 10 10 0 0 15 0 0 0 1 0 0 1
    ⟨⟨10, 0⟩, 0, 0, 0, 1/2, 1, 0⟩ ⟨⟨0, 0⟩, 0, 0, 0, 1/2, 1, 0⟩ (some ⟨10⟩)
    ⟨some ⟨⟨-5/2, 0⟩, 0, 0, 1⟩, some ⟨⟨5/2, 0⟩, 0, 0, 0, 1/2, 1, 0⟩, some ⟨10⟩⟩
    ⟨some ⟨⟨35/2, 0⟩, 0, 0, 1⟩, some ⟨⟨15/2, 0⟩, 0, 0, 0, 1/2, 1, 0⟩, some ⟨10⟩⟩
    ⟨⟨5/2, 0⟩, 0, 0, 0, 1/2, 1, 0⟩ ⟨⟨15/2, 0⟩, 0, 0, 0, 1/2, 1, 0⟩
    (by norm_num) (by norm_num) (by norm_num [absHyp])
    (by norm_num [absHyp]) (by norm_num [pairResolve, absHyp]) rfl rfl

end MGK
